import Mathlib

/-!
# PianoRoll: a shallow embedding of `include/PianoRoll.h`

The header declares the note editor of the sequencer.  Four member functions
have a body in the header (`stopRecording`, `isRecording`, `currentPattern`,
`hasValidPattern`); together with the three enumerations they are embedded
verbatim below.  Member functions that are only declared in the header
(`setCurrentPattern`, `startRecordNote`, `finishRecordNote`, `quantization`,
`updatePosition`) and the classes `Note` and `Pattern` are modelled from the
written specification and marked as such.
-/

namespace PianoRoll

/-! ## Enumerations (PianoRoll.h, lines 61-67 and 173-188) -/

/-- The public enumeration `EditModes`. -/
inductive EditModes where
  | ModeDraw
  | ModeErase
  | ModeSelect
  | ModeEditDetuning
  deriving DecidableEq, Repr

/-- The integer value the compiler gives each enumerator of `EditModes`:
the first is 0 and each next one is the previous plus one. -/
def EditModes.toInt : EditModes → Int
  | .ModeDraw => 0
  | .ModeErase => 1
  | .ModeSelect => 2
  | .ModeEditDetuning => 3

/-- The enumerators of `EditModes` in declaration order. -/
def EditModes.all : List EditModes :=
  [.ModeDraw, .ModeErase, .ModeSelect, .ModeEditDetuning]

/-- The private enumeration `Actions`. -/
inductive Actions where
  | ActionNone
  | ActionMoveNote
  | ActionResizeNote
  | ActionSelectNotes
  | ActionChangeNoteProperty
  | ActionResizeNoteEditArea
  deriving DecidableEq, Repr

/-- The integer value of each enumerator of `Actions`. -/
def Actions.toInt : Actions → Int
  | .ActionNone => 0
  | .ActionMoveNote => 1
  | .ActionResizeNote => 2
  | .ActionSelectNotes => 3
  | .ActionChangeNoteProperty => 4
  | .ActionResizeNoteEditArea => 5

/-- The enumerators of `Actions` in declaration order. -/
def Actions.all : List Actions :=
  [.ActionNone, .ActionMoveNote, .ActionResizeNote, .ActionSelectNotes,
   .ActionChangeNoteProperty, .ActionResizeNoteEditArea]

/-- The private enumeration `NoteEditMode`; `NoteEditCount` is the trailing
sentinel ("make sure this one is always last"). -/
inductive NoteEditMode where
  | NoteEditVolume
  | NoteEditPanning
  | NoteEditCount
  deriving DecidableEq, Repr

/-- The integer value of each enumerator of `NoteEditMode`. -/
def NoteEditMode.toInt : NoteEditMode → Int
  | .NoteEditVolume => 0
  | .NoteEditPanning => 1
  | .NoteEditCount => 2

/-- The enumerators of `NoteEditMode` in declaration order, sentinel included. -/
def NoteEditMode.all : List NoteEditMode :=
  [.NoteEditVolume, .NoteEditPanning, .NoteEditCount]

/-- The real note-edit modes: every enumerator but the sentinel. -/
def NoteEditMode.realModes : List NoteEditMode :=
  NoteEditMode.all.filter (fun m => m != .NoteEditCount)

/-! ## Collaborating classes -/

/-- Modelled from the spec: the class `Note` (header `Note.h`, not part of the
sources).  The attributes are those of the data model: start time and length
in ticks, key, volume, panning and the selected flag; `channel` is the event
source that, with the key, identifies a note in flight while recording. -/
structure Note where
  pos : Int
  length : Int
  key : Int
  volume : Int
  panning : Int
  selected : Bool
  channel : Int
  deriving DecidableEq, Repr

/-- Modelled from the spec: the class `Pattern` (only forward-declared in the
header): the note collection being edited, with the length in ticks after
which the transport loops. -/
structure Pattern where
  notes : List Note
  length : Int
  deriving DecidableEq, Repr

/-- Modelled from the spec: the selected entry of the quantize combo box
(`ComboBoxModel m_quantizeModel`): a grid denominator, or "free". -/
inductive QuantizeLevel where
  | free
  | denominator (d : Nat)
  deriving DecidableEq, Repr

/-! ## Editor state (data members, PianoRoll.h lines 255-341)

Widgets, menus, pixmaps and colours carry no editing state and are left out.
A `Pattern*` is an optional pattern (`none` is `NULL`); the `Note*`
`m_currentNote` is an optional index into the pattern's notes. -/

/-- The data members of class `PianoRoll`. -/
structure State where
  m_markedSemiTones : List Int
  m_quantizeModel : QuantizeLevel
  m_pattern : Option Pattern
  m_currentPosition : Int
  m_recording : Bool
  m_recordingNotes : List Note
  m_currentNote : Option Nat
  m_action : Actions
  m_noteEditMode : NoteEditMode
  m_selectStartTick : Int
  m_selectedTick : Int
  m_selectStartKey : Int
  m_selectedKeys : Int
  m_moveBoundaryLeft : Int
  m_moveBoundaryTop : Int
  m_moveBoundaryRight : Int
  m_moveBoundaryBottom : Int
  m_mouseDownKey : Int
  m_mouseDownTick : Int
  m_lastMouseX : Int
  m_lastMouseY : Int
  m_moveStartX : Int
  m_moveStartY : Int
  m_oldNotesEditHeight : Int
  m_notesEditHeight : Int
  m_ppt : Int
  m_totalKeysToScroll : Int
  m_lenOfNewNotes : Int
  m_lastNoteVolume : Int
  m_lastNotePanning : Int
  m_startKey : Int
  m_lastKey : Int
  m_editMode : EditModes
  m_ctrlMode : EditModes
  m_mouseDownLeft : Bool
  m_mouseDownRight : Bool
  m_scrollBack : Bool
  m_startedWithShift : Bool

/-! ## Member functions with a body in the header (lines 74-92) -/

/-- Source: `inline void stopRecording() { m_recording = false; }` -/
def stopRecording (s : State) : State :=
  { s with m_recording := false }

/-- Source: `inline bool isRecording() const { return m_recording; }` -/
def isRecording (s : State) : Bool :=
  s.m_recording

/-- Source: `const Pattern* currentPattern() const { return m_pattern; }` -/
def currentPattern (s : State) : Option Pattern :=
  s.m_pattern

/-- Source: `bool hasValidPattern() const { return m_pattern != NULL; }` -/
def hasValidPattern (s : State) : Bool :=
  s.m_pattern != none

/-! ## Time and quantization (declared in the header, defined elsewhere) -/

/-- Modelled from the spec: the grid unit in ticks of a quantize level.  A
level is a grid denominator, so its unit is that fraction of a tact; the
"free" level snaps to single ticks, which leaves every tick where it is.  The
number of ticks per tact is a constant of the time model that the header does
not give; it is a parameter here. -/
def gridUnit (ticksPerTact : Nat) : QuantizeLevel → Int
  | .free => 1
  | .denominator d => ((ticksPerTact / d : Nat) : Int)

/-- Modelled from the spec: `int quantization() const`, declared at line 96
without a body: the grid unit of the quantize level selected in
`m_quantizeModel`. -/
def quantization (ticksPerTact : Nat) (s : State) : Int :=
  gridUnit ticksPerTact s.m_quantizeModel

/-- Modelled from the spec: snapping a tick to the nearest multiple of a grid
unit, an exact midpoint going to the earlier tick.  A unit that is not
positive leaves no grid to snap to and the tick is returned unchanged. -/
def snapToGrid (t unit : Int) : Int :=
  if unit ≤ 0 then t
  else
    let r := t % unit
    if 2 * r ≤ unit then t - r else t - r + unit

/-- Modelled from the spec: `quantize(tick, level)` of the time/quantization
engine (no such function is in the sources): the tick snapped to the grid
whose unit `quantization()` reports when the level is selected. -/
def quantize (ticksPerTact : Nat) (t : Int) (L : QuantizeLevel) : Int :=
  snapToGrid t (gridUnit ticksPerTact L)

/-! ## Selection (declared in the header, defined elsewhere) -/

/-- Modelled from the spec: whether a note lies in the selection rectangle
`(startTick, tickSpan, startKey, keySpan)`.  The signed spans are normalised
first; the note is in when its interval `[pos, pos + length)` meets the tick
range and its key lies in the key range.  Both ranges are half-open, so a
rectangle with a zero span holds nothing. -/
def inSelection (startTick tickSpan startKey keySpan : Int) (n : Note) : Bool :=
  let tickLo := min startTick (startTick + tickSpan)
  let tickHi := max startTick (startTick + tickSpan)
  let keyLo := min startKey (startKey + keySpan)
  let keyHi := max startKey (startKey + keySpan)
  decide (max n.pos tickLo < min (n.pos + n.length) tickHi) &&
    decide (keyLo ≤ n.key) && decide (n.key < keyHi)

/-- Modelled from the spec: `resolveSelection()` of the selection engine: the
notes of the bound pattern that lie in the selection rectangle held in
`m_selectStartTick`, `m_selectedTick`, `m_selectStartKey`, `m_selectedKeys`;
no note when no pattern is bound. -/
def resolveSelection (s : State) : List Note :=
  match s.m_pattern with
  | none => []
  | some p =>
    p.notes.filter
      (inSelection s.m_selectStartTick s.m_selectedTick s.m_selectStartKey s.m_selectedKeys)

/-! ## Pattern binding (declared in the header, defined elsewhere) -/

/-- Modelled from the spec: `void setCurrentPattern( Pattern* newPattern )`,
declared at line 72 without a body.  The new pattern (or none) is bound and
the transient editor state is cleared with it: the selection rectangle, the
gesture in progress (action and current note) and the recording buffer. -/
def setCurrentPattern (s : State) (newPattern : Option Pattern) : State :=
  { s with
    m_pattern := newPattern
    m_recordingNotes := []
    m_currentNote := none
    m_action := .ActionNone
    m_selectStartTick := 0
    m_selectedTick := 0
    m_selectStartKey := 0
    m_selectedKeys := 0 }

/-! ## Recording merge (declared in the header, defined elsewhere) -/

/-- Modelled from the spec: the transport's periodic current-position callback
`void updatePosition(const MidiTime & t )` (line 150, no body): the quantized
tick it delivers becomes the current position used for recording. -/
def updatePosition (s : State) (t : Int) : State :=
  { s with m_currentPosition := t }

/-- Modelled from the spec: two notes are the same note in flight when they
agree on key and on channel. -/
def sameIdentity (a b : Note) : Bool :=
  a.key == b.key && a.channel == b.channel

/-- Modelled from the spec: the length of a recorded note that started at
`start` and ends at the current position `now`: their difference, taken modulo
the pattern length when the transport looped during the hold (the position is
then before the start). -/
def recordedLength (start now patternLength : Int) : Int :=
  if start ≤ now then now - start else (now - start) % patternLength

/-- Modelled from the spec: `void startRecordNote( const Note & n )`, declared
at line 137 without a body.  While recording with a pattern bound, a buffer
entry is opened under the identity of `n` (an entry already open under that
identity is replaced, the buffer being a mapping); its start is the current
position and its length is not known yet (0).  Otherwise the event is dropped. -/
def startRecordNote (s : State) (n : Note) : State :=
  if s.m_recording && hasValidPattern s then
    { s with
      m_recordingNotes :=
        s.m_recordingNotes.filter (fun e => !sameIdentity e n) ++
          [{ n with pos := s.m_currentPosition, length := 0 }] }
  else s

/-- Modelled from the spec: `void finishRecordNote( const Note & n )`, declared
at line 138 without a body.  While recording with a pattern bound, the buffer
entry open under the identity of `n` is closed: it is taken out of the buffer
and, with its length computed from the current position, appended to the
bound pattern.  With no such entry, no pattern or no recording, nothing
happens. -/
def finishRecordNote (s : State) (n : Note) : State :=
  if s.m_recording then
    match s.m_pattern with
    | none => s
    | some p =>
      match s.m_recordingNotes.find? (fun e => sameIdentity e n) with
      | none => s
      | some e =>
        { s with
          m_pattern := some
            { p with
              notes := p.notes ++
                [{ e with length := recordedLength e.pos s.m_currentPosition p.length }] }
          m_recordingNotes := s.m_recordingNotes.filter (fun e => !sameIdentity e n) }
  else s

/-! ## Sample states -/

/-- An editor at rest: nothing bound, nothing recorded, draw mode. -/
def idle : State :=
  { m_markedSemiTones := []
    m_quantizeModel := .denominator 16
    m_pattern := none
    m_currentPosition := 0
    m_recording := false
    m_recordingNotes := []
    m_currentNote := none
    m_action := .ActionNone
    m_noteEditMode := .NoteEditVolume
    m_selectStartTick := 0
    m_selectedTick := 0
    m_selectStartKey := 0
    m_selectedKeys := 0
    m_moveBoundaryLeft := 0
    m_moveBoundaryTop := 0
    m_moveBoundaryRight := 0
    m_moveBoundaryBottom := 0
    m_mouseDownKey := 0
    m_mouseDownTick := 0
    m_lastMouseX := 0
    m_lastMouseY := 0
    m_moveStartX := 0
    m_moveStartY := 0
    m_oldNotesEditHeight := 100
    m_notesEditHeight := 100
    m_ppt := 128
    m_totalKeysToScroll := 0
    m_lenOfNewNotes := 48
    m_lastNoteVolume := 100
    m_lastNotePanning := 0
    m_startKey := 57
    m_lastKey := 0
    m_editMode := .ModeDraw
    m_ctrlMode := .ModeDraw
    m_mouseDownLeft := false
    m_mouseDownRight := false
    m_scrollBack := false
    m_startedWithShift := false }

/-- A key-57 note event as the event source delivers it. -/
def keyA4 : Note :=
  { pos := 0, length := 0, key := 57, volume := 100, panning := 0,
    selected := false, channel := 0 }

/-- A one-note pattern of four tacts. -/
def onePattern : Pattern :=
  { notes := [{ pos := 0, length := 96, key := 57, volume := 100, panning := 0,
                selected := false, channel := 0 }],
    length := 768 }

/-- A recording editor in the middle of a hold: a pattern is bound, the
position is tick 100 and the buffer holds the entry of a key pressed there. -/
def midHold : State :=
  { idle with
    m_pattern := some onePattern
    m_currentPosition := 100
    m_recording := true
    m_recordingNotes := [{ keyA4 with pos := 100 }] }

/-! ## Theorems: the functions defined in the header -/

/-- C1 (as stated, refuted): in the mid-hold state the recording buffer holds
one open entry, and after `stopRecording()` it still holds that entry: the
buffer is not empty afterwards. -/
theorem C1_stopRecording_buffer_not_emptied :
    midHold.m_recordingNotes = [{ keyA4 with pos := 100 }] ∧
      (stopRecording midHold).m_recordingNotes = [{ keyA4 with pos := 100 }] ∧
      (stopRecording midHold).m_recordingNotes ≠ [] := by
  refine ⟨rfl, rfl, ?_⟩
  simp [stopRecording, midHold]

/-- C1 (amended): for every editor state, `stopRecording()` only sets
`m_recording` to false: the state afterwards is the state before with that one
member overwritten, so the recording buffer `m_recordingNotes` is exactly as it
was, open entries included, and is empty afterwards if and only if it was
empty before. -/
theorem C1_stopRecording_keeps_buffer (s : State) :
    stopRecording s = { s with m_recording := false } ∧
      (stopRecording s).m_recording = false ∧
      (stopRecording s).m_recordingNotes = s.m_recordingNotes ∧
      ((stopRecording s).m_recordingNotes = [] ↔ s.m_recordingNotes = []) :=
  ⟨rfl, rfl, rfl, Iff.rfl⟩

/-- C2: for every editor state, `stopRecording()` leaves the pattern binding
alone: `currentPattern()` and `hasValidPattern()` return what they returned
before, and the bound pattern holds the same notes (none is created). -/
theorem C2_stopRecording_keeps_pattern (s : State) :
    currentPattern (stopRecording s) = currentPattern s ∧
      hasValidPattern (stopRecording s) = hasValidPattern s ∧
      (currentPattern (stopRecording s)).map Pattern.notes =
        (currentPattern s).map Pattern.notes :=
  ⟨rfl, rfl, rfl⟩

/-- C3: for every editor state, `isRecording()` returns false right after
`stopRecording()`, whatever it returned before, and a second `stopRecording()`
gives the same state as the first. -/
theorem C3_stopRecording_clears_flag (s : State) :
    isRecording (stopRecording s) = false ∧
      stopRecording (stopRecording s) = stopRecording s :=
  ⟨rfl, rfl⟩

/-- C4: for every editor state, `hasValidPattern()` returns true if and only
if `currentPattern()` is not null, and false if and only if it is null. -/
theorem C4_hasValidPattern_iff_bound (s : State) :
    (hasValidPattern s = true ↔ currentPattern s ≠ none) ∧
      (hasValidPattern s = false ↔ currentPattern s = none) := by
  unfold hasValidPattern currentPattern
  cases s.m_pattern <;> simp

/-- C5: `EditModes` has exactly the four members Draw, Erase, Select and
EditDetuning, pairwise distinct, with integer codes 0, 1, 2, 3 in that order,
and the mode held in the editor state is one of them. -/
theorem C5_editModes_four_values :
    (∀ m : EditModes,
        m = .ModeDraw ∨ m = .ModeErase ∨ m = .ModeSelect ∨ m = .ModeEditDetuning) ∧
      EditModes.all = [.ModeDraw, .ModeErase, .ModeSelect, .ModeEditDetuning] ∧
      EditModes.all.Nodup ∧
      EditModes.all.map EditModes.toInt = [0, 1, 2, 3] ∧
      Function.Injective EditModes.toInt ∧
      (∀ s : State, s.m_editMode ∈ EditModes.all) := by
  refine ⟨?_, rfl, by decide, rfl, ?_, ?_⟩
  · intro m; cases m <;> simp
  · intro a b h; cases a <;> cases b <;> first | rfl | simp [EditModes.toInt] at h
  · intro s; cases s.m_editMode <;> simp [EditModes.all]

/-- C6: `Actions` has exactly the six members None, MoveNote, ResizeNote,
SelectNotes, ChangeNoteProperty and ResizeNoteEditArea, pairwise distinct;
None differs from each of the five gesture actions; and the action held in
the editor state is one of the six. -/
theorem C6_actions_six_values :
    (∀ a : Actions,
        a = .ActionNone ∨ a = .ActionMoveNote ∨ a = .ActionResizeNote ∨
          a = .ActionSelectNotes ∨ a = .ActionChangeNoteProperty ∨
          a = .ActionResizeNoteEditArea) ∧
      Actions.all =
        [.ActionNone, .ActionMoveNote, .ActionResizeNote, .ActionSelectNotes,
         .ActionChangeNoteProperty, .ActionResizeNoteEditArea] ∧
      Actions.all.Nodup ∧
      Actions.all.length = 6 ∧
      (∀ a : Actions,
        a ≠ .ActionNone ↔
          a ∈ [Actions.ActionMoveNote, .ActionResizeNote, .ActionSelectNotes,
               .ActionChangeNoteProperty, .ActionResizeNoteEditArea]) ∧
      (∀ s : State, s.m_action ∈ Actions.all) := by
  refine ⟨?_, rfl, by decide, rfl, ?_, ?_⟩
  · intro a; cases a <;> simp
  · intro a; cases a <;> simp
  · intro s; cases s.m_action <;> simp [Actions.all]

/-- C10: the real note-edit modes are exactly volume and panning; the sentinel
`NoteEditCount` comes last, its integer value 2 is their number and exceeds the
value of each of them; and a mode index taken modulo `NoteEditCount` is the
value of a real mode. -/
theorem C10_noteEditCount_is_last :
    NoteEditMode.realModes = [.NoteEditVolume, .NoteEditPanning] ∧
      NoteEditMode.all.getLast? = some .NoteEditCount ∧
      NoteEditMode.NoteEditCount.toInt = 2 ∧
      NoteEditMode.NoteEditCount.toInt = (NoteEditMode.realModes.length : Int) ∧
      (∀ m : NoteEditMode, m ∈ NoteEditMode.realModes ↔ m ≠ .NoteEditCount) ∧
      (∀ m : NoteEditMode,
        m ≠ .NoteEditCount → m.toInt < NoteEditMode.NoteEditCount.toInt) ∧
      (∀ i : Nat, ∃ m : NoteEditMode,
        m ∈ NoteEditMode.realModes ∧
          m.toInt = (i : Int) % NoteEditMode.NoteEditCount.toInt) := by
  refine ⟨rfl, rfl, rfl, rfl, ?_, ?_, ?_⟩
  · intro m; cases m <;> simp [NoteEditMode.realModes, NoteEditMode.all]
  · intro m; cases m <;> simp [NoteEditMode.toInt]
  · intro i
    have h : (i : Int) % 2 = 0 ∨ (i : Int) % 2 = 1 := by omega
    rcases h with h | h
    · exact ⟨.NoteEditVolume, by simp [NoteEditMode.realModes, NoteEditMode.all],
        by simp [NoteEditMode.toInt, h]⟩
    · exact ⟨.NoteEditPanning, by simp [NoteEditMode.realModes, NoteEditMode.all],
        by simp [NoteEditMode.toInt, h]⟩

/-! ## Theorems: quantization -/

/-- A snapped tick lies on the grid. -/
theorem snapToGrid_dvd (t unit : Int) (h : 0 < unit) : unit ∣ snapToGrid t unit := by
  have hd : unit ∣ t - t % unit := Int.dvd_sub_of_emod_eq rfl
  unfold snapToGrid
  simp only [not_le.mpr h, if_false]
  split
  · exact hd
  · exact Int.dvd_add hd (Int.dvd_refl unit)

/-- A snapped tick is at most half a grid unit away from the tick, and on an
exact midpoint it is the earlier of the two grid ticks. -/
theorem snapToGrid_nearest (t unit : Int) (h : 0 < unit) :
    2 * |snapToGrid t unit - t| ≤ unit ∧
      (2 * (t % unit) = unit → snapToGrid t unit < t) := by
  have h0 : 0 ≤ t % unit := Int.emod_nonneg t (ne_of_gt h)
  have h1 : t % unit < unit := Int.emod_lt_of_pos t h
  unfold snapToGrid
  simp only [not_le.mpr h, if_false]
  constructor
  · split
    · have e : t - t % unit - t = -(t % unit) := by ring
      rw [e, abs_neg, abs_of_nonneg h0]
      assumption
    · have e : t - t % unit + unit - t = unit - t % unit := by ring
      rw [e, abs_of_nonneg (by omega)]
      omega
  · intro hm
    rw [if_pos (le_of_eq hm)]
    omega

/-- Snapping a tick that is already on the grid changes nothing. -/
theorem snapToGrid_of_dvd (m unit : Int) (h : unit ∣ m) : snapToGrid m unit = m := by
  unfold snapToGrid
  split
  · rfl
  · rename_i hu
    have hr : m % unit = 0 := Int.emod_eq_zero_of_dvd h
    have hpos : 0 < unit := not_le.mp hu
    simp only [hr]
    rw [if_pos (by omega)]
    omega

/-- Snapping twice to the same grid is snapping once. -/
theorem snapToGrid_idem (t unit : Int) :
    snapToGrid (snapToGrid t unit) unit = snapToGrid t unit := by
  by_cases h : 0 < unit
  · exact snapToGrid_of_dvd _ _ (snapToGrid_dvd t unit h)
  · have hu : unit ≤ 0 := not_lt.mp h
    simp [snapToGrid, hu]

/-- C7: quantization is idempotent: for every tick and every quantize level,
quantizing a quantized tick returns it unchanged; the grid is the one whose
unit `quantization()` reports for the level selected in the editor. -/
theorem C7_quantize_idempotent (ticksPerTact : Nat) (t : Int) (L : QuantizeLevel) :
    quantize ticksPerTact (quantize ticksPerTact t L) L = quantize ticksPerTact t L ∧
      (∀ s : State,
        quantize ticksPerTact t s.m_quantizeModel =
          snapToGrid t (quantization ticksPerTact s)) :=
  ⟨snapToGrid_idem t (gridUnit ticksPerTact L), fun _ => rfl⟩

/-! ## Theorems: pattern binding -/

/-- A selection rectangle with zero spans holds no note. -/
theorem inSelection_zero_span (startTick startKey : Int) (n : Note) :
    inSelection startTick 0 startKey 0 n = false := by
  simp [inSelection]

/-- C9: for every editor state and every new pattern (or none),
`setCurrentPattern` leaves, in one step, an empty selection (a rectangle of
zero spans that resolves to no note), the action None, an empty recording
buffer, and the new pattern as `currentPattern()`. -/
theorem C9_setCurrentPattern_clears_transients (s : State) (newPattern : Option Pattern) :
    resolveSelection (setCurrentPattern s newPattern) = [] ∧
      (setCurrentPattern s newPattern).m_selectedTick = 0 ∧
      (setCurrentPattern s newPattern).m_selectedKeys = 0 ∧
      (setCurrentPattern s newPattern).m_action = .ActionNone ∧
      (setCurrentPattern s newPattern).m_currentNote = none ∧
      (setCurrentPattern s newPattern).m_recordingNotes = [] ∧
      currentPattern (setCurrentPattern s newPattern) = newPattern := by
  refine ⟨?_, rfl, rfl, rfl, rfl, rfl, rfl⟩
  cases newPattern with
  | none => rfl
  | some p =>
    show p.notes.filter (inSelection 0 0 0 0) = []
    rw [List.filter_eq_nil_iff]
    intro n _
    simp [inSelection_zero_span]

/-! ## Theorems: recording merge -/

/-- The identity test looks at the key and the channel of its second note only. -/
theorem sameIdentity_congr (e a b : Note) (h : sameIdentity a b = true) :
    sameIdentity e a = sameIdentity e b := by
  simp only [sameIdentity, Bool.and_eq_true, beq_iff_eq] at h
  simp [sameIdentity, h.1, h.2]

/-- After every element satisfying a test is filtered out and one that
satisfies it is appended, a search by that test finds the appended one. -/
theorem find?_filter_not_append {α : Type} (q : α → Bool) (l : List α) (a : α)
    (h : q a = true) : (l.filter (fun e => !q e) ++ [a]).find? q = some a := by
  induction l with
  | nil => simp [h]
  | cons x xs ih =>
    by_cases hx : q x = true
    · simpa [List.filter_cons, hx] using ih
    · have hx2 : q x = false := by simpa using hx
      simp [List.filter_cons, hx2, List.find?_cons, ih]

/-- Filtering by a test a second time changes nothing, and drops an appended
element that fails it. -/
theorem filter_filter_append_drop {α : Type} (q : α → Bool) (l : List α) (a : α)
    (h : q a = false) : (l.filter q ++ [a]).filter q = l.filter q := by
  simp [List.filter_append, h]

/-- A note-on while recording with a pattern bound opens the buffer entry. -/
theorem startRecordNote_open (s : State) (p : Pattern) (n : Note)
    (hrec : s.m_recording = true) (hpat : s.m_pattern = some p) :
    startRecordNote s n =
      { s with
        m_recordingNotes :=
          s.m_recordingNotes.filter (fun e => !sameIdentity e n) ++
            [{ n with pos := s.m_currentPosition, length := 0 }] } := by
  simp [startRecordNote, hasValidPattern, hrec, hpat]

/-- A note-off while recording with a pattern bound closes the entry found
under its identity. -/
theorem finishRecordNote_close (s : State) (p : Pattern) (n e : Note)
    (hrec : s.m_recording = true) (hpat : s.m_pattern = some p)
    (hfind : s.m_recordingNotes.find? (fun e => sameIdentity e n) = some e) :
    finishRecordNote s n =
      { s with
        m_pattern := some
          { p with
            notes := p.notes ++
              [{ e with length := recordedLength e.pos s.m_currentPosition p.length }] }
        m_recordingNotes := s.m_recordingNotes.filter (fun e => !sameIdentity e n) } := by
  simp [finishRecordNote, hrec, hpat, hfind]

/-- C8: while recording with a pattern bound, a note-on (`startRecordNote`) at
position `tOn` followed, with no transport loop (`tOn ≤ tOff`), by the matching
note-off (`finishRecordNote`) at position `tOff` appends exactly one note to the
bound pattern, with start `tOn` and length `tOff - tOn`, and closes the buffer
entry; at `tOn = 100` and `tOff = 140` the note has start 100 and length 40. -/
theorem C8_record_note_on_off (s : State) (p : Pattern) (nOn nOff : Note) (tOn tOff : Int)
    (hrec : isRecording s = true) (hpat : currentPattern s = some p)
    (hpos : s.m_currentPosition = tOn) (hmatch : sameIdentity nOn nOff = true)
    (hle : tOn ≤ tOff) :
    (finishRecordNote (updatePosition (startRecordNote s nOn) tOff) nOff).m_pattern =
        some { p with notes := p.notes ++ [{ nOn with pos := tOn, length := tOff - tOn }] } ∧
      (finishRecordNote (updatePosition (startRecordNote s nOn) tOff) nOff).m_recordingNotes =
        s.m_recordingNotes.filter (fun e => !sameIdentity e nOn) := by
  unfold isRecording at hrec
  unfold currentPattern at hpat
  have hfun : (fun e => sameIdentity e nOff) = (fun e => sameIdentity e nOn) := by
    funext e; exact (sameIdentity_congr e nOn nOff hmatch).symm
  have hentry : sameIdentity { nOn with pos := tOn, length := 0 } nOn = true := by
    simp [sameIdentity]
  have hfind := find?_filter_not_append (fun e => sameIdentity e nOn)
    s.m_recordingNotes { nOn with pos := tOn, length := 0 } hentry
  have hdrop := filter_filter_append_drop (fun e => !sameIdentity e nOn)
    s.m_recordingNotes { nOn with pos := tOn, length := 0 } (by simp [hentry])
  have hstart := startRecordNote_open s p nOn hrec hpat
  rw [hpos] at hstart
  rw [finishRecordNote_close (updatePosition (startRecordNote s nOn) tOff) p nOff
    { nOn with pos := tOn, length := 0 }
    (by simp [updatePosition, hstart, hrec])
    (by simp [updatePosition, hstart, hpat])
    (by simpa [updatePosition, hstart, hfun] using hfind)]
  refine ⟨?_, ?_⟩
  · simp [updatePosition, recordedLength, hle]
  · have hfun2 : (fun e => !sameIdentity e nOff) = (fun e => !sameIdentity e nOn) := by
      funext e; rw [sameIdentity_congr e nOn nOff hmatch]
    show List.filter (fun e => !sameIdentity e nOff)
      (updatePosition (startRecordNote s nOn) tOff).m_recordingNotes = _
    rw [hfun2, hstart]
    exact hdrop

/-- C8 at the inputs of the specification: note-on at tick 100, note-off at
tick 140, on a recording editor bound to a one-note pattern: the pattern gains
exactly the note with start 100 and length 40, and the buffer is empty again. -/
theorem C8_record_note_on_off_witness :
    (finishRecordNote (updatePosition (startRecordNote midHold keyA4) 140) keyA4).m_pattern =
        some
          { notes :=
              [{ pos := 0, length := 96, key := 57, volume := 100, panning := 0,
                 selected := false, channel := 0 },
               { pos := 100, length := 40, key := 57, volume := 100, panning := 0,
                 selected := false, channel := 0 }],
            length := 768 } ∧
      (finishRecordNote (updatePosition (startRecordNote midHold keyA4) 140)
          keyA4).m_recordingNotes = [] :=
  C8_record_note_on_off midHold onePattern keyA4 keyA4 100 140 rfl rfl rfl rfl (by decide)

/-- After `stopRecording()` a note-off changes nothing: an entry left open in
the buffer is never turned into a note. -/
theorem finishRecordNote_after_stop (s : State) (n : Note) :
    finishRecordNote (stopRecording s) n = stopRecording s := by
  simp [finishRecordNote, stopRecording]

end PianoRoll
